import Mathlib

/-!
Shallow embedding of the trading backend (`src/app.py`).

Modelling conventions:
* Python numbers (prices, quantities) are embedded as exact rationals `ℚ`;
  the floating-point "rounding tolerance" of the spec becomes exact equality.
* A JSON request body is `Option OrderRequest`; `none` models a falsy body
  (absent or empty), `some req` a truthy JSON object whose relevant fields
  are the `Option`-valued fields of `OrderRequest` (`none` = key absent).
* Python truthiness tests (`not price`, `not symbol`, ...) are embedded
  faithfully: a numeric field is falsy when absent or equal to 0; a string
  field is falsy when absent or empty.
* `uuid.uuid4()` produces fresh identifiers; this is modelled by a counter
  `nextId` threaded through the state.  `datetime.now()` timestamps carry no
  logic and are omitted.
* The Python dicts `orders_db` / `portfolio_db` are modelled as a list of
  orders (keyed by `orderId`) and an association list keyed by symbol, with
  insertion-order preserving update/remove operations mirroring dict
  semantics; `trades_db` is a list.
* `place_order` in the source returns the (aliased, hence post-execution)
  order dict; the embedding re-reads the stored order after execution.
-/

structure Instrument where
  symbol : String
  exchange : String
  instrumentType : String
  lastTradedPrice : ℚ
deriving Repr, DecidableEq

/-- `instruments_db` from `src/app.py` (static catalog). -/
def instruments_db : List Instrument :=
  [ ⟨"RELIANCE", "NSE", "EQUITY", 2450.50⟩,
    ⟨"TCS", "NSE", "EQUITY", 3680.25⟩,
    ⟨"INFY", "NSE", "EQUITY", 1542.75⟩,
    ⟨"HDFCBANK", "NSE", "EQUITY", 1625.30⟩,
    ⟨"ICICIBANK", "NSE", "EQUITY", 1089.60⟩ ]

def MOCK_USER_ID : String := "user123"

structure Order where
  orderId : Nat
  userId : String
  symbol : String
  orderType : String
  orderStyle : String
  quantity : ℚ
  price : ℚ
  status : String
deriving Repr, DecidableEq

structure Trade where
  tradeId : Nat
  orderId : Nat
  userId : String
  symbol : String
  orderType : String
  quantity : ℚ
  price : ℚ
deriving Repr, DecidableEq

structure Holding where
  quantity : ℚ
  averagePrice : ℚ
  totalCost : ℚ
deriving Repr, DecidableEq

/-- The mutable module state of `src/app.py`: `orders_db`, `trades_db`,
`portfolio_db`, plus the fresh-identifier counter modelling `uuid4`. -/
structure TradingState where
  orders : List Order
  trades : List Trade
  portfolio : List (String × Holding)
  nextId : Nat
deriving Repr, DecidableEq

/-- Empty startup state (`orders_db = {}`, `trades_db = []`, `portfolio_db = {}`). -/
def initialState : TradingState := { orders := [], trades := [], portfolio := [], nextId := 0 }

/-- `portfolio_db.get(symbol)`: first binding of the key, dict-style. -/
def portfolioGet : List (String × Holding) → String → Option Holding
  | [], _ => none
  | (k, h) :: rest, sym => if k = sym then some h else portfolioGet rest sym

/-- `portfolio_db[symbol] = h`: replace in place if the key is present,
append at the end otherwise (dict insertion-order semantics). -/
def portfolioSet : List (String × Holding) → String → Holding → List (String × Holding)
  | [], sym, h => [(sym, h)]
  | (k, h0) :: rest, sym, h =>
      if k = sym then (sym, h) :: rest else (k, h0) :: portfolioSet rest sym h

/-- `del portfolio_db[symbol]`: drop the binding of the key. -/
def portfolioRemove : List (String × Holding) → String → List (String × Holding)
  | [], _ => []
  | (k, h0) :: rest, sym =>
      if k = sym then rest else (k, h0) :: portfolioRemove rest sym

/-- A raw place-order request body (the fields `place_order` reads). -/
structure OrderRequest where
  orderType : Option String
  orderStyle : Option String
  symbol : Option String
  quantity : Option ℚ
  price : Option ℚ
deriving Repr, DecidableEq

/-- Python truthiness `not x` for an optional number: absent or zero. -/
def falsyNum : Option ℚ → Bool
  | none => true
  | some q => q == 0

/-- Python truthiness `not s` for an optional string: absent or empty. -/
def falsyStr : Option String → Bool
  | none => true
  | some s => s == ""

/-- `next((i for i in instruments_db if i['symbol'] == symbol), None)`. -/
def findInstrument (sym : String) : Option Instrument :=
  instruments_db.find? (fun i => i.symbol == sym)

/-- Result of `place_order`: a 400 validation error or the 201 order payload. -/
inductive PlaceResult where
  | validationError (message : String)
  | success (order : Order)
deriving Repr, DecidableEq

/-- `execute_order(order_id)` from `src/app.py`: no-op if the order id is
unknown; otherwise set the order's status to EXECUTED, append a trade
mirroring the order, and apply the BUY/SELL portfolio update. -/
def executeOrder (s : TradingState) (oid : Nat) : TradingState :=
  match s.orders.find? (fun o => o.orderId == oid) with
  | none => s
  | some order =>
    let orders := s.orders.map (fun o => if o.orderId == oid then { o with status := "EXECUTED" } else o)
    let trade : Trade :=
      { tradeId := s.nextId, orderId := oid, userId := order.userId,
        symbol := order.symbol, orderType := order.orderType,
        quantity := order.quantity, price := order.price }
    let trades := s.trades ++ [trade]
    let sym := order.symbol
    let holding := (portfolioGet s.portfolio sym).getD ⟨0, 0, 0⟩
    if order.orderType == "BUY" then
      let newTotalCost := holding.totalCost + order.quantity * order.price
      let newQuantity := holding.quantity + order.quantity
      { orders := orders, trades := trades, nextId := s.nextId + 1,
        portfolio := portfolioSet s.portfolio sym
          { quantity := newQuantity, averagePrice := newTotalCost / newQuantity,
            totalCost := newTotalCost } }
    else
      let newQuantity := holding.quantity - order.quantity
      if newQuantity = 0 then
        { orders := orders, trades := trades, nextId := s.nextId + 1,
          portfolio := portfolioRemove s.portfolio sym }
      else
        { orders := orders, trades := trades, nextId := s.nextId + 1,
          portfolio := portfolioSet s.portfolio sym
            { quantity := newQuantity, averagePrice := holding.averagePrice,
              totalCost := newQuantity * holding.averagePrice } }

/-- The response step of `place_order`: the source returns the `order` dict it
inserted, which after `execute_order` has been mutated in place; the embedding
re-reads the stored order (the fallback arm is unreachable: the order was just
inserted). -/
def respondOrder (s2 : TradingState) (fallback : Order) (oid : Nat) : PlaceResult × TradingState :=
  match s2.orders.find? (fun o => o.orderId == oid) with
  | some stored => (.success stored, s2)
  | none => (.success fallback, s2)

/-- `place_order()` from `src/app.py`: the eight validation checks in source
order (first failure wins), then order creation, immediate execution for
MARKET style, and the response carrying the stored (post-execution) order. -/
def placeOrder (s : TradingState) (data : Option OrderRequest) : PlaceResult × TradingState :=
  match data with
  | none => (.validationError "Request body is required", s)
  | some req =>
    if !(req.orderType == some "BUY" || req.orderType == some "SELL") then
      (.validationError "orderType must be BUY or SELL", s)
    else if !(req.orderStyle == some "MARKET" || req.orderStyle == some "LIMIT") then
      (.validationError "orderStyle must be MARKET or LIMIT", s)
    else if falsyStr req.symbol then
      (.validationError "symbol is required", s)
    else if falsyNum req.quantity || req.quantity.getD 0 ≤ 0 then
      (.validationError "quantity must be greater than 0", s)
    else if req.orderStyle == some "LIMIT" && falsyNum req.price then
      (.validationError "price is required for LIMIT orders", s)
    else
      match findInstrument (req.symbol.getD "") with
      | none => (.validationError ("Invalid symbol: " ++ req.symbol.getD ""), s)
      | some instrument =>
        if req.orderType == some "SELL" &&
            ((portfolioGet s.portfolio (req.symbol.getD "")).map Holding.quantity).getD 0
              < req.quantity.getD 0 then
          (.validationError "Insufficient holdings to sell", s)
        else
          let orderId := s.nextId
          let order : Order :=
            { orderId := orderId, userId := MOCK_USER_ID,
              symbol := req.symbol.getD "",
              orderType := req.orderType.getD "",
              orderStyle := req.orderStyle.getD "",
              quantity := req.quantity.getD 0,
              price := if req.orderStyle == some "LIMIT" then req.price.getD 0
                       else instrument.lastTradedPrice,
              status := "PLACED" }
          let s1 : TradingState :=
            { s with orders := s.orders ++ [order], nextId := s.nextId + 1 }
          let s2 := if req.orderStyle == some "MARKET" then executeOrder s1 orderId else s1
          respondOrder s2 order orderId

/-- Process a sequence of place-order requests, each to completion. -/
def runRequests (s : TradingState) : List (Option OrderRequest) → TradingState
  | [] => s
  | r :: rest => runRequests (placeOrder s r).2 rest

/-- A state reachable from the empty startup state by place-order requests. -/
def Reachable (s : TradingState) : Prop :=
  ∃ reqs, s = runRequests initialState reqs

/-! ### Helper lemmas about the dict model -/

lemma portfolioGet_mem {p : List (String × Holding)} {sym : String} {h : Holding}
    (hget : portfolioGet p sym = some h) : (sym, h) ∈ p := by
  induction p with
  | nil => simp [portfolioGet] at hget
  | cons e rest ih =>
    obtain ⟨k, h0⟩ := e
    by_cases hk : k = sym
    · subst hk
      simp [portfolioGet] at hget
      simp [hget]
    · simp [portfolioGet, hk] at hget
      exact List.mem_cons_of_mem _ (ih hget)

lemma mem_portfolioSet {p : List (String × Holding)} {sym : String} {h : Holding}
    {e : String × Holding} (he : e ∈ portfolioSet p sym h) : e = (sym, h) ∨ e ∈ p := by
  induction p with
  | nil => simp [portfolioSet] at he; simp [he]
  | cons e0 rest ih =>
    obtain ⟨k, h0⟩ := e0
    by_cases hk : k = sym
    · subst hk
      simp [portfolioSet] at he
      rcases he with he | he
      · exact Or.inl he
      · exact Or.inr (List.mem_cons_of_mem _ he)
    · simp [portfolioSet, hk] at he
      rcases he with he | he
      · exact Or.inr (by simp [he])
      · rcases ih he with h' | h'
        · exact Or.inl h'
        · exact Or.inr (List.mem_cons_of_mem _ h')

lemma mem_portfolioRemove {p : List (String × Holding)} {sym : String}
    {e : String × Holding} (he : e ∈ portfolioRemove p sym) : e ∈ p := by
  induction p with
  | nil => simp [portfolioRemove] at he
  | cons e0 rest ih =>
    obtain ⟨k, h0⟩ := e0
    by_cases hk : k = sym
    · subst hk
      simp [portfolioRemove] at he
      exact List.mem_cons_of_mem _ he
    · simp [portfolioRemove, hk] at he
      rcases he with he | he
      · simp [he]
      · exact List.mem_cons_of_mem _ (ih he)

lemma portfolioGet_portfolioSet_self (p : List (String × Holding)) (sym : String) (h : Holding) :
    portfolioGet (portfolioSet p sym h) sym = some h := by
  induction p with
  | nil => simp [portfolioSet, portfolioGet]
  | cons e0 rest ih =>
    obtain ⟨k, h0⟩ := e0
    by_cases hk : k = sym
    · subst hk; simp [portfolioSet, portfolioGet]
    · simp [portfolioSet, portfolioGet, hk, ih]

lemma portfolioGet_eq_none_of_not_mem {p : List (String × Holding)} {sym : String}
    (hnm : sym ∉ p.map Prod.fst) : portfolioGet p sym = none := by
  induction p with
  | nil => rfl
  | cons e0 rest ih =>
    obtain ⟨k, h0⟩ := e0
    have hk : k ≠ sym := by
      intro h; exact hnm (by simp [h])
    have hrest : sym ∉ rest.map Prod.fst := by
      intro h; exact hnm (List.mem_cons_of_mem _ h)
    rw [show portfolioGet ((k, h0) :: rest) sym = if k = sym then some h0 else portfolioGet rest sym from rfl]
    rw [if_neg hk]
    exact ih hrest

lemma portfolioGet_portfolioRemove {p : List (String × Holding)} {sym : String}
    (hnd : (p.map Prod.fst).Nodup) :
    portfolioGet (portfolioRemove p sym) sym = none := by
  induction p with
  | nil => rfl
  | cons e0 rest ih =>
    obtain ⟨k, h0⟩ := e0
    rw [List.map_cons, List.nodup_cons] at hnd
    by_cases hk : k = sym
    · subst hk
      rw [show portfolioRemove ((k, h0) :: rest) k = rest from by simp [portfolioRemove]]
      exact portfolioGet_eq_none_of_not_mem hnd.1
    · rw [show portfolioRemove ((k, h0) :: rest) sym = (k, h0) :: portfolioRemove rest sym from by
        simp [portfolioRemove, hk]]
      rw [show portfolioGet ((k, h0) :: portfolioRemove rest sym) sym
            = if k = sym then some h0 else portfolioGet (portfolioRemove rest sym) sym from rfl]
      rw [if_neg hk]
      exact ih hnd.2

lemma find?_append_fresh {orders : List Order} {n : Nat} {order : Order}
    (hlt : ∀ o ∈ orders, o.orderId < n) (hid : order.orderId = n) :
    (orders ++ [order]).find? (fun o => o.orderId == n) = some order := by
  induction orders with
  | nil => simp [List.find?, hid]
  | cons o rest ih =>
    have hne : (o.orderId == n) = false := by
      have := hlt o (List.mem_cons_self o rest)
      simp [Nat.ne_of_lt this]
    simp only [List.cons_append, List.find?, hne]
    exact ih (fun o' ho' => hlt o' (List.mem_cons_of_mem _ ho'))

lemma map_setExec_append_fresh {orders : List Order} {n : Nat} {order : Order}
    (hlt : ∀ o ∈ orders, o.orderId < n) (hid : order.orderId = n) :
    (orders ++ [order]).map (fun o => if o.orderId == n then { o with status := "EXECUTED" } else o)
      = orders ++ [{ order with status := "EXECUTED" }] := by
  induction orders with
  | nil => simp [hid]
  | cons o rest ih =>
    have hne : (o.orderId == n) = false := by
      have := hlt o (List.mem_cons_self o rest)
      simp [Nat.ne_of_lt this]
    simp only [List.cons_append, List.map_cons, hne, Bool.false_eq_true, if_false, List.cons.injEq,
      true_and]
    exact ih (fun o' ho' => hlt o' (List.mem_cons_of_mem _ ho'))

lemma findInstrument_ne_empty {sym : String} {instr : Instrument}
    (hfind : findInstrument sym = some instr) : sym ≠ "" := by
  intro h
  subst h
  rw [show findInstrument "" = none from rfl] at hfind
  exact Option.noConfusion hfind

/-- The quantity the SELL validation reads equals the quantity of the holding
`execute_order` reads (missing holding = 0 either way). -/
lemma heldQuantity_eq (p : List (String × Holding)) (sym : String) :
    ((portfolioGet p sym).map Holding.quantity).getD 0
      = ((portfolioGet p sym).getD ⟨0, 0, 0⟩).quantity := by
  cases portfolioGet p sym <;> rfl

lemma executeOrder_fresh_buy {orders : List Order} {trades : List Trade}
    {portfolio : List (String × Holding)} {n m : Nat} {order : Order}
    (hids : ∀ o ∈ orders, o.orderId < m) (hid : order.orderId = m)
    (hbuy : order.orderType = "BUY") :
    executeOrder ⟨orders ++ [order], trades, portfolio, n⟩ m =
      ⟨orders ++ [{ order with status := "EXECUTED" }],
       trades ++ [⟨n, m, order.userId, order.symbol, order.orderType, order.quantity, order.price⟩],
       portfolioSet portfolio order.symbol
         ⟨((portfolioGet portfolio order.symbol).getD ⟨0,0,0⟩).quantity + order.quantity,
          (((portfolioGet portfolio order.symbol).getD ⟨0,0,0⟩).totalCost + order.quantity * order.price)
            / (((portfolioGet portfolio order.symbol).getD ⟨0,0,0⟩).quantity + order.quantity),
          ((portfolioGet portfolio order.symbol).getD ⟨0,0,0⟩).totalCost + order.quantity * order.price⟩,
       n + 1⟩ := by
  unfold executeOrder
  rw [show (⟨orders ++ [order], trades, portfolio, n⟩ : TradingState).orders = orders ++ [order] from rfl]
  rw [find?_append_fresh hids hid]
  simp only [map_setExec_append_fresh hids hid, hbuy, beq_self_eq_true, if_true]

lemma executeOrder_fresh_sell {orders : List Order} {trades : List Trade}
    {portfolio : List (String × Holding)} {n m : Nat} {order : Order}
    (hids : ∀ o ∈ orders, o.orderId < m) (hid : order.orderId = m)
    (hsell : order.orderType = "SELL") :
    executeOrder ⟨orders ++ [order], trades, portfolio, n⟩ m =
      ⟨orders ++ [{ order with status := "EXECUTED" }],
       trades ++ [⟨n, m, order.userId, order.symbol, order.orderType, order.quantity, order.price⟩],
       (if ((portfolioGet portfolio order.symbol).getD ⟨0,0,0⟩).quantity - order.quantity = 0 then
          portfolioRemove portfolio order.symbol
        else
          portfolioSet portfolio order.symbol
            ⟨((portfolioGet portfolio order.symbol).getD ⟨0,0,0⟩).quantity - order.quantity,
             ((portfolioGet portfolio order.symbol).getD ⟨0,0,0⟩).averagePrice,
             (((portfolioGet portfolio order.symbol).getD ⟨0,0,0⟩).quantity - order.quantity)
               * ((portfolioGet portfolio order.symbol).getD ⟨0,0,0⟩).averagePrice⟩),
       n + 1⟩ := by
  unfold executeOrder
  rw [show (⟨orders ++ [order], trades, portfolio, n⟩ : TradingState).orders = orders ++ [order] from rfl]
  rw [find?_append_fresh hids hid]
  simp only [map_setExec_append_fresh hids hid, hsell,
    show ("SELL" == "BUY") = false from rfl, Bool.false_eq_true, if_false]
  split <;> rfl

lemma placeOrder_market_buy {s : TradingState} {req : OrderRequest} {sym : String}
    {instr : Instrument} {q : ℚ}
    (hids : ∀ o ∈ s.orders, o.orderId < s.nextId)
    (htype : req.orderType = some "BUY")
    (hstyle : req.orderStyle = some "MARKET")
    (hsym : req.symbol = some sym)
    (hfind : findInstrument sym = some instr)
    (hq : req.quantity = some q) (hqpos : 0 < q) :
    placeOrder s (some req) =
      (.success
        { orderId := s.nextId, userId := MOCK_USER_ID, symbol := sym, orderType := "BUY",
          orderStyle := "MARKET", quantity := q, price := instr.lastTradedPrice,
          status := "EXECUTED" },
       ⟨s.orders ++ [{ orderId := s.nextId, userId := MOCK_USER_ID, symbol := sym,
                        orderType := "BUY", orderStyle := "MARKET", quantity := q,
                        price := instr.lastTradedPrice, status := "EXECUTED" }],
        s.trades ++ [⟨s.nextId + 1, s.nextId, MOCK_USER_ID, sym, "BUY", q, instr.lastTradedPrice⟩],
        portfolioSet s.portfolio sym
          ⟨((portfolioGet s.portfolio sym).getD ⟨0,0,0⟩).quantity + q,
           (((portfolioGet s.portfolio sym).getD ⟨0,0,0⟩).totalCost + q * instr.lastTradedPrice)
             / (((portfolioGet s.portfolio sym).getD ⟨0,0,0⟩).quantity + q),
           ((portfolioGet s.portfolio sym).getD ⟨0,0,0⟩).totalCost + q * instr.lastTradedPrice⟩,
        s.nextId + 2⟩) := by
  have hsymne : (sym == "") = false := beq_eq_false_iff_ne.mpr (findInstrument_ne_empty hfind)
  have hqne : (q == 0) = false := beq_eq_false_iff_ne.mpr (ne_of_gt hqpos)
  have hqle : decide (q ≤ 0) = false := decide_eq_false (not_le.mpr hqpos)
  unfold placeOrder respondOrder
  simp only [htype, hstyle, hsym, hq, falsyStr, falsyNum, hsymne, hqne, hqle,
    Option.getD_some, hfind]
  simp only [show (some "BUY" == some "BUY" : Bool) = true from rfl,
    show (some "BUY" == some "SELL" : Bool) = false from rfl,
    show (some "MARKET" == some "MARKET" : Bool) = true from rfl,
    show (some "MARKET" == some "LIMIT" : Bool) = false from rfl,
    Bool.true_or, Bool.or_self, Bool.not_true, Bool.false_and, Bool.or_false, Bool.false_or,
    Bool.false_eq_true, if_false, if_true, ite_true, ite_false]
  rw [executeOrder_fresh_buy hids rfl rfl]
  rw [show (⟨s.orders ++ [{ orderId := s.nextId, userId := MOCK_USER_ID, symbol := sym,
                            orderType := "BUY", orderStyle := "MARKET", quantity := q,
                            price := instr.lastTradedPrice, status := "EXECUTED" }],
      s.trades ++ [⟨s.nextId + 1, s.nextId, MOCK_USER_ID, sym, "BUY", q, instr.lastTradedPrice⟩],
      portfolioSet s.portfolio sym
        ⟨((portfolioGet s.portfolio sym).getD ⟨0,0,0⟩).quantity + q,
         (((portfolioGet s.portfolio sym).getD ⟨0,0,0⟩).totalCost + q * instr.lastTradedPrice)
           / (((portfolioGet s.portfolio sym).getD ⟨0,0,0⟩).quantity + q),
         ((portfolioGet s.portfolio sym).getD ⟨0,0,0⟩).totalCost + q * instr.lastTradedPrice⟩,
      s.nextId + 2⟩ : TradingState).orders
    = s.orders ++ [{ orderId := s.nextId, userId := MOCK_USER_ID, symbol := sym,
                     orderType := "BUY", orderStyle := "MARKET", quantity := q,
                     price := instr.lastTradedPrice, status := "EXECUTED" }] from rfl]
  rw [find?_append_fresh hids rfl]

lemma placeOrder_market_sell {s : TradingState} {req : OrderRequest} {sym : String}
    {instr : Instrument} {q : ℚ}
    (hids : ∀ o ∈ s.orders, o.orderId < s.nextId)
    (htype : req.orderType = some "SELL")
    (hstyle : req.orderStyle = some "MARKET")
    (hsym : req.symbol = some sym)
    (hfind : findInstrument sym = some instr)
    (hq : req.quantity = some q) (hqpos : 0 < q)
    (hheld : q ≤ ((portfolioGet s.portfolio sym).getD ⟨0,0,0⟩).quantity) :
    placeOrder s (some req) =
      (.success
        { orderId := s.nextId, userId := MOCK_USER_ID, symbol := sym, orderType := "SELL",
          orderStyle := "MARKET", quantity := q, price := instr.lastTradedPrice,
          status := "EXECUTED" },
       ⟨s.orders ++ [{ orderId := s.nextId, userId := MOCK_USER_ID, symbol := sym,
                       orderType := "SELL", orderStyle := "MARKET", quantity := q,
                       price := instr.lastTradedPrice, status := "EXECUTED" }],
        s.trades ++ [⟨s.nextId + 1, s.nextId, MOCK_USER_ID, sym, "SELL", q, instr.lastTradedPrice⟩],
        (if ((portfolioGet s.portfolio sym).getD ⟨0,0,0⟩).quantity - q = 0 then
           portfolioRemove s.portfolio sym
         else
           portfolioSet s.portfolio sym
             ⟨((portfolioGet s.portfolio sym).getD ⟨0,0,0⟩).quantity - q,
              ((portfolioGet s.portfolio sym).getD ⟨0,0,0⟩).averagePrice,
              (((portfolioGet s.portfolio sym).getD ⟨0,0,0⟩).quantity - q)
                * ((portfolioGet s.portfolio sym).getD ⟨0,0,0⟩).averagePrice⟩),
        s.nextId + 2⟩) := by
  have hsymne : (sym == "") = false := beq_eq_false_iff_ne.mpr (findInstrument_ne_empty hfind)
  have hqne : (q == 0) = false := beq_eq_false_iff_ne.mpr (ne_of_gt hqpos)
  have hqle : decide (q ≤ 0) = false := decide_eq_false (not_le.mpr hqpos)
  have hheld' : decide (((portfolioGet s.portfolio sym).map Holding.quantity).getD 0 < q) = false := by
    rw [heldQuantity_eq]
    exact decide_eq_false (not_lt.mpr hheld)
  unfold placeOrder respondOrder
  simp only [htype, hstyle, hsym, hq, falsyStr, falsyNum, hsymne, hqne, hqle,
    Option.getD_some, hfind, hheld']
  simp only [show (some "SELL" == some "BUY" : Bool) = false from rfl,
    show (some "SELL" == some "SELL" : Bool) = true from rfl,
    show (some "MARKET" == some "MARKET" : Bool) = true from rfl,
    show (some "MARKET" == some "LIMIT" : Bool) = false from rfl,
    Bool.true_or, Bool.false_or, Bool.or_true, Bool.or_self, Bool.not_true, Bool.false_and,
    Bool.true_and, Bool.and_false, Bool.or_false,
    Bool.false_eq_true, if_false, if_true, ite_true, ite_false]
  rw [executeOrder_fresh_sell hids rfl rfl]
  rw [find?_append_fresh hids rfl]

lemma placeOrder_limit {s : TradingState} {req : OrderRequest} {sym : String}
    {instr : Instrument} {q : ℚ}
    (hids : ∀ o ∈ s.orders, o.orderId < s.nextId)
    (htype : req.orderType = some "BUY" ∨ req.orderType = some "SELL")
    (hstyle : req.orderStyle = some "LIMIT")
    (hsym : req.symbol = some sym)
    (hfind : findInstrument sym = some instr)
    (hq : req.quantity = some q) (hqpos : 0 < q)
    (hp : falsyNum req.price = false)
    (hheld : req.orderType = some "SELL" →
      q ≤ ((portfolioGet s.portfolio sym).getD ⟨0,0,0⟩).quantity) :
    placeOrder s (some req) =
      (.success
        { orderId := s.nextId, userId := MOCK_USER_ID, symbol := sym,
          orderType := req.orderType.getD "", orderStyle := "LIMIT", quantity := q,
          price := req.price.getD 0, status := "PLACED" },
       ⟨s.orders ++ [{ orderId := s.nextId, userId := MOCK_USER_ID, symbol := sym,
                       orderType := req.orderType.getD "", orderStyle := "LIMIT", quantity := q,
                       price := req.price.getD 0, status := "PLACED" }],
        s.trades, s.portfolio, s.nextId + 1⟩) := by
  have hsymne : (sym == "") = false := beq_eq_false_iff_ne.mpr (findInstrument_ne_empty hfind)
  have hqne : (q == 0) = false := beq_eq_false_iff_ne.mpr (ne_of_gt hqpos)
  have hqfalsy : falsyNum (some q) = false := hqne
  have hqle : decide (q ≤ 0) = false := decide_eq_false (not_le.mpr hqpos)
  have htcond : (!(req.orderType == some "BUY" || req.orderType == some "SELL")) = false := by
    rcases htype with h | h <;> rw [h] <;> rfl
  have hscond : (req.orderType == some "SELL" &&
      decide ((Option.map Holding.quantity (portfolioGet s.portfolio sym)).getD 0 < q))
        = false := by
    rcases htype with h | h
    · rw [h]; rfl
    · rw [h]
      rw [show ((some "SELL" : Option String) == some "SELL") = true from rfl, Bool.true_and]
      rw [heldQuantity_eq]
      exact decide_eq_false (not_lt.mpr (hheld h))
  unfold placeOrder respondOrder
  simp only [hstyle, hsym, hq, falsyStr, hsymne, hqfalsy, hqle,
    Option.getD_some, hfind, htcond, hscond, hp]
  simp only [show (some "LIMIT" == some "MARKET" : Bool) = false from rfl,
    show (some "LIMIT" == some "LIMIT" : Bool) = true from rfl,
    Bool.true_or, Bool.false_or, Bool.or_true, Bool.or_self, Bool.not_false, Bool.not_true,
    Bool.false_and, Bool.true_and, Bool.and_false, Bool.or_false,
    Bool.false_eq_true, if_false, if_true, ite_true, ite_false]
  rw [find?_append_fresh hids rfl]

lemma respondOrder_success (s2 : TradingState) (fb : Order) (oid : Nat) :
    ∃ ord, (respondOrder s2 fb oid).1 = PlaceResult.success ord := by
  unfold respondOrder
  cases s2.orders.find? (fun o => o.orderId == oid) <;> exact ⟨_, rfl⟩

/-- The eight validation checks as spec 4.1 lists them, in their listed
order: each entry is (check fails, message).  Check 1 (body present) is
handled by `firstFailure` itself; check 6 requires the price to be PRESENT
for LIMIT orders, exactly as the spec words it. -/
def specChecks (s : TradingState) (req : OrderRequest) : List (Bool × String) :=
  [ (!(req.orderType == some "BUY" || req.orderType == some "SELL"),
      "orderType must be BUY or SELL"),
    (!(req.orderStyle == some "MARKET" || req.orderStyle == some "LIMIT"),
      "orderStyle must be MARKET or LIMIT"),
    (falsyStr req.symbol, "symbol is required"),
    (falsyNum req.quantity || req.quantity.getD 0 ≤ 0, "quantity must be greater than 0"),
    (req.orderStyle == some "LIMIT" && req.price.isNone, "price is required for LIMIT orders"),
    ((findInstrument (req.symbol.getD "")).isNone, "Invalid symbol: " ++ req.symbol.getD ""),
    (req.orderType == some "SELL" &&
        ((portfolioGet s.portfolio (req.symbol.getD "")).map Holding.quantity).getD 0
          < req.quantity.getD 0,
      "Insufficient holdings to sell") ]

/-- Message of the first failing check of the spec's list (spec 4.1: first
failure wins). -/
def firstFailure (s : TradingState) (data : Option OrderRequest) : Option String :=
  match data with
  | none => some "Request body is required"
  | some req => (specChecks s req).findSome? (fun c => if c.1 then some c.2 else none)

/-- The checks as `place_order` actually performs them, in the same order:
identical to `specChecks` except check 6, which tests Python truthiness of
the price (`not price`), firing when the price is absent OR equal to zero. -/
def amendedChecks (s : TradingState) (req : OrderRequest) : List (Bool × String) :=
  [ (!(req.orderType == some "BUY" || req.orderType == some "SELL"),
      "orderType must be BUY or SELL"),
    (!(req.orderStyle == some "MARKET" || req.orderStyle == some "LIMIT"),
      "orderStyle must be MARKET or LIMIT"),
    (falsyStr req.symbol, "symbol is required"),
    (falsyNum req.quantity || req.quantity.getD 0 ≤ 0, "quantity must be greater than 0"),
    (req.orderStyle == some "LIMIT" && falsyNum req.price, "price is required for LIMIT orders"),
    ((findInstrument (req.symbol.getD "")).isNone, "Invalid symbol: " ++ req.symbol.getD ""),
    (req.orderType == some "SELL" &&
        ((portfolioGet s.portfolio (req.symbol.getD "")).map Holding.quantity).getD 0
          < req.quantity.getD 0,
      "Insufficient holdings to sell") ]

/-- Message of the first failing check of the amended list. -/
def amendedFirstFailure (s : TradingState) (data : Option OrderRequest) : Option String :=
  match data with
  | none => some "Request body is required"
  | some req => (amendedChecks s req).findSome? (fun c => if c.1 then some c.2 else none)

lemma placeOrder_firstFailure (s : TradingState) (data : Option OrderRequest) :
    match amendedFirstFailure s data with
    | some msg => placeOrder s data = (.validationError msg, s)
    | none => ∃ ord, (placeOrder s data).1 = .success ord := by
  cases data with
  | none => simp [amendedFirstFailure, placeOrder]
  | some req =>
    cases hc1 : (!(req.orderType == some "BUY" || req.orderType == some "SELL")) with
    | true => simp [amendedFirstFailure, amendedChecks, placeOrder, List.findSome?, hc1]
    | false =>
    cases hc2 : (!(req.orderStyle == some "MARKET" || req.orderStyle == some "LIMIT")) with
    | true => simp [amendedFirstFailure, amendedChecks, placeOrder, List.findSome?, hc1, hc2]
    | false =>
    cases hc3 : falsyStr req.symbol with
    | true => simp [amendedFirstFailure, amendedChecks, placeOrder, List.findSome?, hc1, hc2, hc3]
    | false =>
    cases hc4 : (falsyNum req.quantity || decide (req.quantity.getD 0 ≤ 0)) with
    | true => simp [amendedFirstFailure, amendedChecks, placeOrder, List.findSome?, hc1, hc2, hc3, hc4]
    | false =>
    cases hc5 : (req.orderStyle == some "LIMIT" && falsyNum req.price) with
    | true => simp [amendedFirstFailure, amendedChecks, placeOrder, List.findSome?, hc1, hc2, hc3, hc4, hc5]
    | false =>
    cases hfi : findInstrument (req.symbol.getD "") with
    | none => simp [amendedFirstFailure, amendedChecks, placeOrder, List.findSome?, hc1, hc2, hc3, hc4, hc5, hfi]
    | some instrument =>
    cases hc7 : (req.orderType == some "SELL" &&
        decide (((portfolioGet s.portfolio (req.symbol.getD "")).map Holding.quantity).getD 0
          < req.quantity.getD 0)) with
    | true =>
      simp [amendedFirstFailure, amendedChecks, placeOrder, List.findSome?, hc1, hc2, hc3, hc4, hc5, hfi, hc7]
    | false =>
      simp only [amendedFirstFailure, amendedChecks, placeOrder, List.findSome?, hc1, hc2, hc3, hc4, hc5,
        hfi, hc7, Option.isNone_some, Bool.false_eq_true, if_false, ite_false]
      exact respondOrder_success _ _ _

/-- Invariant of spec section 3 on the portfolio ledger. -/
def LedgerOK (p : List (String × Holding)) : Prop :=
  ∀ e ∈ p, e.2.totalCost = e.2.quantity * e.2.averagePrice ∧ 0 < e.2.quantity

/-- Every stored order has an identifier below the fresh-id counter. -/
def OrdersBounded (s : TradingState) : Prop :=
  ∀ o ∈ s.orders, o.orderId < s.nextId

def StateOK (s : TradingState) : Prop := OrdersBounded s ∧ LedgerOK s.portfolio

lemma orderType_cases {req : OrderRequest}
    (hc : (!(req.orderType == some "BUY" || req.orderType == some "SELL")) = false) :
    req.orderType = some "BUY" ∨ req.orderType = some "SELL" :=
  or_iff_not_imp_left.mpr (by simpa using hc)

lemma orderStyle_cases {req : OrderRequest}
    (hc : (!(req.orderStyle == some "MARKET" || req.orderStyle == some "LIMIT")) = false) :
    req.orderStyle = some "MARKET" ∨ req.orderStyle = some "LIMIT" :=
  or_iff_not_imp_left.mpr (by simpa using hc)

lemma symbol_of_not_falsy {req : OrderRequest} (hc : falsyStr req.symbol = false) :
    ∃ sym, req.symbol = some sym := by
  cases hs : req.symbol with
  | none => rw [hs] at hc; simp [falsyStr] at hc
  | some sym => exact ⟨sym, rfl⟩

lemma quantity_pos_of_check {req : OrderRequest}
    (hc : (falsyNum req.quantity || decide (req.quantity.getD 0 ≤ 0)) = false) :
    ∃ q, req.quantity = some q ∧ 0 < q := by
  cases hq : req.quantity with
  | none => rw [hq] at hc; simp [falsyNum] at hc
  | some q =>
    rw [hq] at hc
    simp [falsyNum] at hc
    exact ⟨q, rfl, hc.2⟩

lemma holding_quantity_nonneg {p : List (String × Holding)} (hL : LedgerOK p) (sym : String) :
    0 ≤ ((portfolioGet p sym).getD ⟨0, 0, 0⟩).quantity := by
  cases hpg : portfolioGet p sym with
  | none => simp
  | some h => exact le_of_lt (hL _ (portfolioGet_mem hpg)).2

lemma eq_mul_div_self {a b : ℚ} (hb : b ≠ 0) : a = b * (a / b) := by
  field_simp

lemma stateOK_placeOrder {s : TradingState} (hOK : StateOK s) (data : Option OrderRequest) :
    StateOK (placeOrder s data).2 := by
  cases data with
  | none => exact hOK
  | some req =>
    cases hc1 : (!(req.orderType == some "BUY" || req.orderType == some "SELL")) with
    | true => simp only [placeOrder, hc1, if_true, ite_true]; exact hOK
    | false =>
    cases hc2 : (!(req.orderStyle == some "MARKET" || req.orderStyle == some "LIMIT")) with
    | true => simp only [placeOrder, hc1, hc2, Bool.false_eq_true, if_false, if_true, ite_true, ite_false]; exact hOK
    | false =>
    cases hc3 : falsyStr req.symbol with
    | true => simp only [placeOrder, hc1, hc2, hc3, Bool.false_eq_true, if_false, if_true, ite_true, ite_false]; exact hOK
    | false =>
    cases hc4 : (falsyNum req.quantity || decide (req.quantity.getD 0 ≤ 0)) with
    | true => simp only [placeOrder, hc1, hc2, hc3, hc4, Bool.false_eq_true, if_false, if_true, ite_true, ite_false]; exact hOK
    | false =>
    cases hc5 : (req.orderStyle == some "LIMIT" && falsyNum req.price) with
    | true => simp only [placeOrder, hc1, hc2, hc3, hc4, hc5, Bool.false_eq_true, if_false, if_true, ite_true, ite_false]; exact hOK
    | false =>
    cases hfi : findInstrument (req.symbol.getD "") with
    | none => simp only [placeOrder, hc1, hc2, hc3, hc4, hc5, hfi, Bool.false_eq_true, if_false, if_true, ite_true, ite_false]; exact hOK
    | some instrument =>
    cases hc7 : (req.orderType == some "SELL" &&
        decide (((portfolioGet s.portfolio (req.symbol.getD "")).map Holding.quantity).getD 0
          < req.quantity.getD 0)) with
    | true => simp only [placeOrder, hc1, hc2, hc3, hc4, hc5, hfi, hc7, Bool.false_eq_true, if_false, if_true, ite_true, ite_false]; exact hOK
    | false =>
      obtain ⟨sym, hsym⟩ := symbol_of_not_falsy hc3
      obtain ⟨q, hq, hqpos⟩ := quantity_pos_of_check hc4
      rw [hsym] at hfi
      simp only [Option.getD_some] at hfi
      have hids : ∀ o ∈ s.orders, o.orderId < s.nextId := hOK.1
      have hQ0 : 0 ≤ ((portfolioGet s.portfolio sym).getD ⟨0, 0, 0⟩).quantity :=
        holding_quantity_nonneg hOK.2 sym
      rcases orderStyle_cases hc2 with hstyle | hstyle
      · rcases orderType_cases hc1 with htype | htype
        · -- MARKET BUY
          rw [placeOrder_market_buy hids htype hstyle hsym hfi hq hqpos]
          have hQpos : 0 < ((portfolioGet s.portfolio sym).getD ⟨0, 0, 0⟩).quantity + q :=
            add_pos_of_nonneg_of_pos hQ0 hqpos
          constructor
          · intro o ho
            rcases List.mem_append.mp ho with ho | ho
            · exact Nat.lt_succ_of_lt (Nat.lt_succ_of_lt (hids o ho))
            · rw [List.mem_singleton.mp ho]
              show s.nextId < s.nextId + 2
              omega
          · intro e he
            rcases mem_portfolioSet he with he | he
            · rw [he]
              exact ⟨eq_mul_div_self (ne_of_gt hQpos), hQpos⟩
            · exact hOK.2 e he
        · -- MARKET SELL
          have hheld : q ≤ ((portfolioGet s.portfolio sym).getD ⟨0, 0, 0⟩).quantity := by
            rw [htype, hsym, hq] at hc7
            simp only [Option.getD_some, beq_self_eq_true, Bool.true_and,
              decide_eq_false_iff_not, not_lt, heldQuantity_eq] at hc7
            exact hc7
          rw [placeOrder_market_sell hids htype hstyle hsym hfi hq hqpos hheld]
          constructor
          · intro o ho
            rcases List.mem_append.mp ho with ho | ho
            · exact Nat.lt_succ_of_lt (Nat.lt_succ_of_lt (hids o ho))
            · rw [List.mem_singleton.mp ho]
              show s.nextId < s.nextId + 2
              omega
          · by_cases hz : ((portfolioGet s.portfolio sym).getD ⟨0, 0, 0⟩).quantity - q = 0
            · rw [if_pos hz]
              intro e he
              exact hOK.2 e (mem_portfolioRemove he)
            · rw [if_neg hz]
              intro e he
              rcases mem_portfolioSet he with he | he
              · rw [he]
                exact ⟨rfl, lt_of_le_of_ne (sub_nonneg.mpr hheld) (Ne.symm hz)⟩
              · exact hOK.2 e he
      · -- LIMIT
        have hp : falsyNum req.price = false := by
          rw [hstyle] at hc5
          simpa using hc5
        have hheld : req.orderType = some "SELL" →
            q ≤ ((portfolioGet s.portfolio sym).getD ⟨0, 0, 0⟩).quantity := by
          intro htype
          rw [htype, hsym, hq] at hc7
          simp only [Option.getD_some, beq_self_eq_true, Bool.true_and,
            decide_eq_false_iff_not, not_lt, heldQuantity_eq] at hc7
          exact hc7
        rw [placeOrder_limit hids (orderType_cases hc1) hstyle hsym hfi hq hqpos hp hheld]
        constructor
        · intro o ho
          rcases List.mem_append.mp ho with ho | ho
          · exact Nat.lt_succ_of_lt (hids o ho)
          · rw [List.mem_singleton.mp ho]
            show s.nextId < s.nextId + 1
            omega
        · exact hOK.2

lemma stateOK_runRequests : ∀ (reqs : List (Option OrderRequest)) (s : TradingState),
    StateOK s → StateOK (runRequests s reqs)
  | [], _, h => h
  | r :: rest, s, h => stateOK_runRequests rest (placeOrder s r).2 (stateOK_placeOrder h r)

lemma stateOK_initial : StateOK initialState :=
  ⟨fun o ho => absurd ho (List.not_mem_nil o), fun e he => absurd he (List.not_mem_nil e)⟩

lemma stateOK_reachable {s : TradingState} (h : Reachable s) : StateOK s := by
  obtain ⟨reqs, rfl⟩ := h
  exact stateOK_runRequests reqs initialState stateOK_initial

lemma invalid_symbol_msg_ne (sym : String) :
    ("Invalid symbol: " ++ sym) ≠ "price is required for LIMIT orders" := by
  intro h
  have hd : ("Invalid symbol: " ++ sym).data = "price is required for LIMIT orders".data := by
    rw [h]
  rw [String.data_append] at hd
  have h3 := congrArg (List.take 16) hd
  rw [show (16 : Nat) = "Invalid symbol: ".data.length from rfl, List.take_left] at h3
  exact absurd h3 (by decide)

lemma falsyNum_true_iff (x : Option ℚ) :
    falsyNum x = true ↔ x = none ∨ x = some 0 := by
  cases x with
  | none => simp [falsyNum]
  | some q =>
    simp [falsyNum]

/-! ### The claims -/

/-- C1: starting from the empty state, after every sequence of place-order
requests (each processed to completion), every entry of the portfolio ledger
satisfies `totalCost = quantity * averagePrice` (exactly, in the rational
model) and has strictly positive quantity; no zero- or negative-quantity
entry ever appears. -/
theorem c1_ledger_invariant (reqs : List (Option OrderRequest)) :
    ∀ e ∈ (runRequests initialState reqs).portfolio,
      e.2.totalCost = e.2.quantity * e.2.averagePrice ∧ 0 < e.2.quantity :=
  (stateOK_runRequests reqs initialState stateOK_initial).2

/-- Witness for C1 at a concrete run: one MARKET BUY of 10 RELIANCE. -/
theorem c1_ledger_invariant_witness :
    (("RELIANCE", (⟨10, 2450.50, 24505⟩ : Holding)).2.totalCost
        = ("RELIANCE", (⟨10, 2450.50, 24505⟩ : Holding)).2.quantity
            * ("RELIANCE", (⟨10, 2450.50, 24505⟩ : Holding)).2.averagePrice)
      ∧ 0 < ("RELIANCE", (⟨10, 2450.50, 24505⟩ : Holding)).2.quantity :=
  c1_ledger_invariant
    [some ⟨some "BUY", some "MARKET", some "RELIANCE", some 10, none⟩]
    ("RELIANCE", ⟨10, 2450.50, 24505⟩) (by
      norm_num [runRequests, placeOrder, executeOrder, respondOrder, portfolioGet, portfolioSet,
        falsyStr, falsyNum, findInstrument, instruments_db, initialState, MOCK_USER_ID,
        List.find?, decide_eq_true_eq]
      norm_num [show ("RELIANCE" = "") = False from by simp,
        show ("MARKET" = "LIMIT") = False from by simp,
        show ("BUY" = "SELL") = False from by simp])

/-- C2: a valid MARKET BUY of quantity q on a catalog symbol with last traded
price p returns the order with status EXECUTED and price p, appends exactly
one trade with quantity q and price p, and updates the holding so that
quantity grows by q, totalCost grows by q*p, and averagePrice is the new
totalCost over the new quantity. -/
theorem c2_market_buy {s : TradingState} {req : OrderRequest} {sym : String}
    {instr : Instrument} {q : ℚ}
    (hids : ∀ o ∈ s.orders, o.orderId < s.nextId)
    (htype : req.orderType = some "BUY")
    (hstyle : req.orderStyle = some "MARKET")
    (hsym : req.symbol = some sym)
    (hfind : findInstrument sym = some instr)
    (hq : req.quantity = some q) (hqpos : 0 < q) :
    ∃ ord trade,
      (placeOrder s (some req)).1 = .success ord ∧
      ord.status = "EXECUTED" ∧
      ord.price = instr.lastTradedPrice ∧
      (placeOrder s (some req)).2.trades = s.trades ++ [trade] ∧
      trade.quantity = q ∧
      trade.price = instr.lastTradedPrice ∧
      portfolioGet (placeOrder s (some req)).2.portfolio sym = some
        { quantity := ((portfolioGet s.portfolio sym).getD ⟨0, 0, 0⟩).quantity + q,
          averagePrice :=
            (((portfolioGet s.portfolio sym).getD ⟨0, 0, 0⟩).totalCost + q * instr.lastTradedPrice)
              / (((portfolioGet s.portfolio sym).getD ⟨0, 0, 0⟩).quantity + q),
          totalCost :=
            ((portfolioGet s.portfolio sym).getD ⟨0, 0, 0⟩).totalCost + q * instr.lastTradedPrice } := by
  rw [placeOrder_market_buy hids htype hstyle hsym hfind hq hqpos]
  exact ⟨_, _, rfl, rfl, rfl, rfl, rfl, rfl, portfolioGet_portfolioSet_self _ _ _⟩

/-- Witness for C2: MARKET BUY of 10 RELIANCE from the empty state. -/
theorem c2_market_buy_witness :
    ∃ ord trade,
      (placeOrder initialState
        (some ⟨some "BUY", some "MARKET", some "RELIANCE", some 10, none⟩)).1 = .success ord ∧
      ord.status = "EXECUTED" ∧
      ord.price = (2450.50 : ℚ) ∧
      (placeOrder initialState
        (some ⟨some "BUY", some "MARKET", some "RELIANCE", some 10, none⟩)).2.trades
        = initialState.trades ++ [trade] ∧
      trade.quantity = 10 ∧
      trade.price = (2450.50 : ℚ) ∧
      portfolioGet (placeOrder initialState
          (some ⟨some "BUY", some "MARKET", some "RELIANCE", some 10, none⟩)).2.portfolio "RELIANCE"
        = some
        { quantity := ((portfolioGet initialState.portfolio "RELIANCE").getD ⟨0, 0, 0⟩).quantity + 10,
          averagePrice :=
            (((portfolioGet initialState.portfolio "RELIANCE").getD ⟨0, 0, 0⟩).totalCost
                + 10 * (2450.50 : ℚ))
              / (((portfolioGet initialState.portfolio "RELIANCE").getD ⟨0, 0, 0⟩).quantity + 10),
          totalCost :=
            ((portfolioGet initialState.portfolio "RELIANCE").getD ⟨0, 0, 0⟩).totalCost
              + 10 * (2450.50 : ℚ) } :=
  c2_market_buy (fun o ho => absurd ho (List.not_mem_nil o)) rfl rfl rfl
    (rfl : findInstrument "RELIANCE" = some ⟨"RELIANCE", "NSE", "EQUITY", 2450.50⟩)
    rfl (by norm_num)

/-- C9: for a MARKET BUY that passes validation in a reachable state, the
divisor used by the execution routine to recompute averagePrice (existing
holding quantity plus order quantity, the new quantity) is strictly positive,
so the division never divides by zero: validation guarantees a positive order
quantity and the ledger invariant a non-negative (indeed positive) base. -/
theorem c9_buy_divisor_pos {s : TradingState} {req : OrderRequest} {sym : String}
    {instr : Instrument} {q : ℚ}
    (hreach : Reachable s)
    (htype : req.orderType = some "BUY")
    (hstyle : req.orderStyle = some "MARKET")
    (hsym : req.symbol = some sym)
    (hfind : findInstrument sym = some instr)
    (hq : req.quantity = some q) (hqpos : 0 < q) :
    0 < ((portfolioGet s.portfolio sym).getD ⟨0, 0, 0⟩).quantity + q :=
  add_pos_of_nonneg_of_pos
    (holding_quantity_nonneg (stateOK_reachable hreach).2 sym) hqpos

/-- Witness for C9: BUY of 10 RELIANCE from the (reachable) empty state. -/
theorem c9_buy_divisor_pos_witness :
    0 < ((portfolioGet initialState.portfolio "RELIANCE").getD ⟨0, 0, 0⟩).quantity + (10 : ℚ) :=
  @c9_buy_divisor_pos initialState
    ⟨some "BUY", some "MARKET", some "RELIANCE", some 10, none⟩
    "RELIANCE" ⟨"RELIANCE", "NSE", "EQUITY", 2450.50⟩ 10
    ⟨[], rfl⟩ rfl rfl rfl rfl rfl (by norm_num)

/-- C5: a valid LIMIT order (BUY or SELL) is returned with status PLACED,
appends no trade, and leaves the portfolio ledger completely unchanged;
the execution routine is never invoked. -/
theorem c5_limit_no_execution {s : TradingState} {req : OrderRequest} {sym : String}
    {instr : Instrument} {q : ℚ}
    (hids : ∀ o ∈ s.orders, o.orderId < s.nextId)
    (htype : req.orderType = some "BUY" ∨ req.orderType = some "SELL")
    (hstyle : req.orderStyle = some "LIMIT")
    (hsym : req.symbol = some sym)
    (hfind : findInstrument sym = some instr)
    (hq : req.quantity = some q) (hqpos : 0 < q)
    (hp : falsyNum req.price = false)
    (hheld : req.orderType = some "SELL" →
      q ≤ ((portfolioGet s.portfolio sym).getD ⟨0, 0, 0⟩).quantity) :
    ∃ ord,
      (placeOrder s (some req)).1 = .success ord ∧
      ord.status = "PLACED" ∧
      (placeOrder s (some req)).2.trades = s.trades ∧
      (placeOrder s (some req)).2.portfolio = s.portfolio := by
  rw [placeOrder_limit hids htype hstyle hsym hfind hq hqpos hp hheld]
  exact ⟨_, rfl, rfl, rfl, rfl⟩

/-- Witness for C5: LIMIT BUY of 5 TCS at price 3600 from the empty state. -/
theorem c5_limit_no_execution_witness :
    ∃ ord,
      (placeOrder initialState
        (some ⟨some "BUY", some "LIMIT", some "TCS", some 5, some 3600⟩)).1 = .success ord ∧
      ord.status = "PLACED" ∧
      (placeOrder initialState
        (some ⟨some "BUY", some "LIMIT", some "TCS", some 5, some 3600⟩)).2.trades
        = initialState.trades ∧
      (placeOrder initialState
        (some ⟨some "BUY", some "LIMIT", some "TCS", some 5, some 3600⟩)).2.portfolio
        = initialState.portfolio :=
  c5_limit_no_execution (fun o ho => absurd ho (List.not_mem_nil o)) (Or.inl rfl) rfl rfl
    (rfl : findInstrument "TCS" = some ⟨"TCS", "NSE", "EQUITY", 3680.25⟩)
    rfl (by norm_num) (by norm_num [falsyNum])
    (fun h => absurd h (by simp))

/-- C6: a valid MARKET SELL whose quantity exactly equals the held quantity
removes the symbol from the portfolio ledger entirely. -/
theorem c6_market_sell_exhausts {s : TradingState} {req : OrderRequest} {sym : String}
    {instr : Instrument} {q : ℚ}
    (hids : ∀ o ∈ s.orders, o.orderId < s.nextId)
    (hnd : (s.portfolio.map Prod.fst).Nodup)
    (htype : req.orderType = some "SELL")
    (hstyle : req.orderStyle = some "MARKET")
    (hsym : req.symbol = some sym)
    (hfind : findInstrument sym = some instr)
    (hq : req.quantity = some q) (hqpos : 0 < q)
    (hexact : ((portfolioGet s.portfolio sym).getD ⟨0, 0, 0⟩).quantity = q) :
    portfolioGet (placeOrder s (some req)).2.portfolio sym = none := by
  rw [placeOrder_market_sell hids htype hstyle hsym hfind hq hqpos (le_of_eq hexact.symm)]
  rw [hexact, sub_self, if_pos rfl]
  exact portfolioGet_portfolioRemove hnd

/-- Witness for C6: SELL 10 RELIANCE when exactly 10 are held. -/
theorem c6_market_sell_exhausts_witness :
    portfolioGet (placeOrder
      { orders := [], trades := [], portfolio := [("RELIANCE", ⟨10, 2450.50, 24505⟩)], nextId := 0 }
      (some ⟨some "SELL", some "MARKET", some "RELIANCE", some 10, none⟩)).2.portfolio "RELIANCE"
      = none :=
  c6_market_sell_exhausts (fun o ho => absurd ho (List.not_mem_nil o)) (by simp)
    rfl rfl rfl
    (rfl : findInstrument "RELIANCE" = some ⟨"RELIANCE", "NSE", "EQUITY", 2450.50⟩)
    rfl (by norm_num) (by norm_num [portfolioGet])

/-- C7: executing a SELL order whose quantity is strictly below the held
quantity leaves averagePrice unchanged, decreases quantity by the sold
amount, and recomputes totalCost as the new quantity times that unchanged
averagePrice. -/
theorem c7_sell_below_holding_keeps_average {s : TradingState} {oid : Nat} {ord : Order}
    (hfind : s.orders.find? (fun o => o.orderId == oid) = some ord)
    (htype : ord.orderType = "SELL")
    (hlt : ord.quantity < ((portfolioGet s.portfolio ord.symbol).getD ⟨0, 0, 0⟩).quantity) :
    portfolioGet (executeOrder s oid).portfolio ord.symbol = some
      { quantity := ((portfolioGet s.portfolio ord.symbol).getD ⟨0, 0, 0⟩).quantity - ord.quantity,
        averagePrice := ((portfolioGet s.portfolio ord.symbol).getD ⟨0, 0, 0⟩).averagePrice,
        totalCost :=
          (((portfolioGet s.portfolio ord.symbol).getD ⟨0, 0, 0⟩).quantity - ord.quantity)
            * ((portfolioGet s.portfolio ord.symbol).getD ⟨0, 0, 0⟩).averagePrice } := by
  unfold executeOrder
  rw [hfind]
  simp only [htype, show ("SELL" == "BUY") = false from rfl, Bool.false_eq_true, if_false,
    ite_false]
  rw [if_neg (ne_of_gt (sub_pos.mpr hlt))]
  exact portfolioGet_portfolioSet_self _ _ _

/-- Witness for C7: sell 4 of 10 held RELIANCE at average 2450.50. -/
theorem c7_sell_below_holding_keeps_average_witness :
    portfolioGet (executeOrder
      { orders := [⟨0, "user123", "RELIANCE", "SELL", "MARKET", 4, 2450.50, "PLACED"⟩],
        trades := [], portfolio := [("RELIANCE", ⟨10, 2450.50, 24505⟩)], nextId := 1 }
      0).portfolio "RELIANCE"
      = some
      { quantity := ((portfolioGet [("RELIANCE", (⟨10, 2450.50, 24505⟩ : Holding))] "RELIANCE").getD
            ⟨0, 0, 0⟩).quantity - 4,
        averagePrice := ((portfolioGet [("RELIANCE", (⟨10, 2450.50, 24505⟩ : Holding))] "RELIANCE").getD
            ⟨0, 0, 0⟩).averagePrice,
        totalCost :=
          (((portfolioGet [("RELIANCE", (⟨10, 2450.50, 24505⟩ : Holding))] "RELIANCE").getD
              ⟨0, 0, 0⟩).quantity - 4)
            * ((portfolioGet [("RELIANCE", (⟨10, 2450.50, 24505⟩ : Holding))] "RELIANCE").getD
              ⟨0, 0, 0⟩).averagePrice } :=
  @c7_sell_below_holding_keeps_average
    { orders := [⟨0, "user123", "RELIANCE", "SELL", "MARKET", 4, 2450.50, "PLACED"⟩],
      trades := [], portfolio := [("RELIANCE", ⟨10, 2450.50, 24505⟩)], nextId := 1 }
    0 ⟨0, "user123", "RELIANCE", "SELL", "MARKET", 4, 2450.50, "PLACED"⟩
    rfl rfl (by norm_num [portfolioGet])

/-- C10 (implicit): the quantity check does not enforce integrality — an
otherwise-valid request whose quantity is a strictly positive non-integer
rational succeeds, creating an order carrying the fractional quantity, and
for MARKET style also a trade and (for BUY) a portfolio update carrying it,
although the data model describes quantity as an integer. -/
theorem c10_fractional_quantity {s : TradingState} {req : OrderRequest} {sym : String}
    {instr : Instrument} {q : ℚ}
    (hids : ∀ o ∈ s.orders, o.orderId < s.nextId)
    (htype : req.orderType = some "BUY" ∨ req.orderType = some "SELL")
    (hstyle : req.orderStyle = some "MARKET" ∨ req.orderStyle = some "LIMIT")
    (hsym : req.symbol = some sym)
    (hfind : findInstrument sym = some instr)
    (hq : req.quantity = some q) (hqpos : 0 < q) (hfrac : q.den ≠ 1)
    (hp : req.orderStyle = some "LIMIT" → falsyNum req.price = false)
    (hheld : req.orderType = some "SELL" →
      q ≤ ((portfolioGet s.portfolio sym).getD ⟨0, 0, 0⟩).quantity) :
    ∃ ord,
      (placeOrder s (some req)).1 = .success ord ∧
      ord.quantity = q ∧
      (req.orderStyle = some "MARKET" → ∃ trade,
        (placeOrder s (some req)).2.trades = s.trades ++ [trade] ∧ trade.quantity = q) ∧
      (req.orderStyle = some "MARKET" → req.orderType = some "BUY" →
        portfolioGet (placeOrder s (some req)).2.portfolio sym = some
          { quantity := ((portfolioGet s.portfolio sym).getD ⟨0, 0, 0⟩).quantity + q,
            averagePrice :=
              (((portfolioGet s.portfolio sym).getD ⟨0, 0, 0⟩).totalCost
                  + q * instr.lastTradedPrice)
                / (((portfolioGet s.portfolio sym).getD ⟨0, 0, 0⟩).quantity + q),
            totalCost :=
              ((portfolioGet s.portfolio sym).getD ⟨0, 0, 0⟩).totalCost
                + q * instr.lastTradedPrice }) := by
  rcases hstyle with hstyle | hstyle
  · rcases htype with htype | htype
    · rw [placeOrder_market_buy hids htype hstyle hsym hfind hq hqpos]
      exact ⟨_, rfl, rfl, fun _ => ⟨_, rfl, rfl⟩,
        fun _ _ => portfolioGet_portfolioSet_self _ _ _⟩
    · rw [placeOrder_market_sell hids htype hstyle hsym hfind hq hqpos (hheld htype)]
      refine ⟨_, rfl, rfl, fun _ => ⟨_, rfl, rfl⟩, fun _ hb => ?_⟩
      rw [htype] at hb
      exact absurd hb (by simp)
  · rw [placeOrder_limit hids htype hstyle hsym hfind hq hqpos (hp hstyle) hheld]
    refine ⟨_, rfl, rfl, fun hm => ?_, fun hm _ => ?_⟩ <;>
      · rw [hstyle] at hm
        exact absurd hm (by simp)

/-- Witness for C10: MARKET BUY of 5/2 RELIANCE from the empty state. -/
theorem c10_fractional_quantity_witness :
    ∃ ord,
      (placeOrder initialState
        (some ⟨some "BUY", some "MARKET", some "RELIANCE", some (5/2), none⟩)).1
        = .success ord ∧
      ord.quantity = (5/2 : ℚ) ∧
      ((some "MARKET" : Option String) = some "MARKET" → ∃ trade,
        (placeOrder initialState
          (some ⟨some "BUY", some "MARKET", some "RELIANCE", some (5/2), none⟩)).2.trades
          = initialState.trades ++ [trade] ∧ trade.quantity = (5/2 : ℚ)) ∧
      ((some "MARKET" : Option String) = some "MARKET" →
        (some "BUY" : Option String) = some "BUY" →
        portfolioGet (placeOrder initialState
          (some ⟨some "BUY", some "MARKET", some "RELIANCE", some (5/2), none⟩)).2.portfolio
            "RELIANCE" = some
          { quantity := ((portfolioGet initialState.portfolio "RELIANCE").getD
                ⟨0, 0, 0⟩).quantity + (5/2 : ℚ),
            averagePrice :=
              (((portfolioGet initialState.portfolio "RELIANCE").getD ⟨0, 0, 0⟩).totalCost
                  + (5/2 : ℚ) * (2450.50 : ℚ))
                / (((portfolioGet initialState.portfolio "RELIANCE").getD
                    ⟨0, 0, 0⟩).quantity + (5/2 : ℚ)),
            totalCost :=
              ((portfolioGet initialState.portfolio "RELIANCE").getD ⟨0, 0, 0⟩).totalCost
                + (5/2 : ℚ) * (2450.50 : ℚ) }) :=
  c10_fractional_quantity (fun o ho => absurd ho (List.not_mem_nil o))
    (Or.inl rfl) (Or.inl rfl) rfl
    (rfl : findInstrument "RELIANCE" = some ⟨"RELIANCE", "NSE", "EQUITY", 2450.50⟩)
    rfl (by norm_num) (by norm_num)
    (fun h => absurd h (by simp)) (fun h => absurd h (by simp))

/-- C3: a SELL request (either style) whose requested quantity exceeds the
held quantity (missing holding = 0) is rejected with a validation error and
the state — order book, trade log and portfolio ledger — is returned
unchanged. -/
theorem c3_sell_insufficient {s : TradingState} {req : OrderRequest} {sym : String} {q : ℚ}
    (htype : req.orderType = some "SELL")
    (hsym : req.symbol = some sym)
    (hq : req.quantity = some q)
    (hheld : ((portfolioGet s.portfolio sym).map Holding.quantity).getD 0 < q) :
    ∃ msg, placeOrder s (some req) = (.validationError msg, s) := by
  have hc1 : (!(req.orderType == some "BUY" || req.orderType == some "SELL")) = false := by
    rw [htype]; rfl
  cases hc2 : (!(req.orderStyle == some "MARKET" || req.orderStyle == some "LIMIT")) with
  | true =>
    exact ⟨"orderStyle must be MARKET or LIMIT", by
      simp only [placeOrder, hc1, hc2, Bool.false_eq_true, if_false, if_true, ite_true, ite_false]⟩
  | false =>
  cases hc3 : falsyStr req.symbol with
  | true =>
    exact ⟨"symbol is required", by
      simp only [placeOrder, hc1, hc2, hc3, Bool.false_eq_true, if_false, if_true, ite_true,
        ite_false]⟩
  | false =>
  cases hc4 : (falsyNum req.quantity || decide (req.quantity.getD 0 ≤ 0)) with
  | true =>
    exact ⟨"quantity must be greater than 0", by
      simp only [placeOrder, hc1, hc2, hc3, hc4, Bool.false_eq_true, if_false, if_true, ite_true,
        ite_false]⟩
  | false =>
  cases hc5 : (req.orderStyle == some "LIMIT" && falsyNum req.price) with
  | true =>
    exact ⟨"price is required for LIMIT orders", by
      simp only [placeOrder, hc1, hc2, hc3, hc4, hc5, Bool.false_eq_true, if_false, if_true,
        ite_true, ite_false]⟩
  | false =>
  cases hfi : findInstrument (req.symbol.getD "") with
  | none =>
    exact ⟨"Invalid symbol: " ++ req.symbol.getD "", by
      simp only [placeOrder, hc1, hc2, hc3, hc4, hc5, hfi, Bool.false_eq_true, if_false, if_true,
        ite_true, ite_false]⟩
  | some instrument =>
    have hc7 : (req.orderType == some "SELL" &&
        decide (((portfolioGet s.portfolio (req.symbol.getD "")).map Holding.quantity).getD 0
          < req.quantity.getD 0)) = true := by
      rw [htype, hsym, hq]
      simp only [Option.getD_some, beq_self_eq_true, Bool.true_and]
      exact decide_eq_true hheld
    exact ⟨"Insufficient holdings to sell", by
      simp only [placeOrder, hc1, hc2, hc3, hc4, hc5, hfi, hc7, Bool.false_eq_true, if_false,
        if_true, ite_true, ite_false]⟩

/-- Witness for C3: SELL 5 RELIANCE from the empty state (held quantity 0). -/
theorem c3_sell_insufficient_witness :
    ∃ msg, placeOrder initialState
      (some ⟨some "SELL", some "MARKET", some "RELIANCE", some 5, none⟩)
      = (.validationError msg, initialState) :=
  @c3_sell_insufficient initialState
    ⟨some "SELL", some "MARKET", some "RELIANCE", some 5, none⟩ "RELIANCE" 5
    rfl rfl rfl (by norm_num [portfolioGet, initialState])

/-- C8 counterexample: a LIMIT request carrying price 0 for a symbol not in
the catalog.  Under the spec's listed checks (price must be PRESENT), the
first failing check is the catalog check, whose message is
"Invalid symbol: FOO"; the code instead returns the price-required message,
so the error returned is not the message of the first failing listed check. -/
theorem c8_first_failure_counterexample :
    firstFailure initialState
      (some ⟨some "BUY", some "LIMIT", some "FOO", some 1, some 0⟩)
      = some "Invalid symbol: FOO"
    ∧ (placeOrder initialState
        (some ⟨some "BUY", some "LIMIT", some "FOO", some 1, some 0⟩)).1
      = .validationError "price is required for LIMIT orders"
    ∧ ("price is required for LIMIT orders" : String) ≠ "Invalid symbol: FOO" := by
  refine ⟨?_, ?_, by decide⟩
  · norm_num [firstFailure, specChecks, List.findSome?, falsyNum, falsyStr, findInstrument,
      instruments_db, initialState, portfolioGet, decide_eq_true_eq,
      show ("FOO" = "") = False from by simp,
      show ("RELIANCE" = "FOO") = False from by simp,
      show ("TCS" = "FOO") = False from by simp,
      show ("INFY" = "FOO") = False from by simp,
      show ("HDFCBANK" = "FOO") = False from by simp,
      show ("ICICIBANK" = "FOO") = False from by simp,
      show ("BUY" = "SELL") = False from by simp,
      show ("Invalid symbol: " ++ "FOO" : String) = "Invalid symbol: FOO" from rfl]
  · norm_num [placeOrder, falsyStr, falsyNum, decide_eq_true_eq,
      show ("FOO" = "") = False from by simp]

/-- C8 (amended): the validator applies the eight checks in the listed order
with first failure wins — except that check 6 is Python truthiness, firing
when a LIMIT request's price is absent OR zero, not mere absence.  Whenever
any check of that amended list fails, `place_order` returns a single
validation error carrying the message of the first failing check and the
state is returned unchanged (no order is created); when all checks pass it
returns a success payload. -/
theorem c8_validator_first_failure_amended (s : TradingState) (data : Option OrderRequest) :
    match amendedFirstFailure s data with
    | some msg => placeOrder s data = (.validationError msg, s)
    | none => ∃ ord, (placeOrder s data).1 = .success ord :=
  placeOrder_firstFailure s data

lemma falsyNum_false_iff (x : Option ℚ) :
    falsyNum x = false ↔ ∃ p, x = some p ∧ p ≠ 0 := by
  cases x <;> simp [falsyNum]

/-- C4 counterexample: a LIMIT request that does supply a price — the value
0 — is nevertheless rejected with the price-required error, because the
source tests Python truthiness (`not price`), not presence. -/
theorem c4_counterexample :
    (some (0 : ℚ) ≠ (none : Option ℚ)) ∧
    (placeOrder initialState
      (some ⟨some "BUY", some "LIMIT", some "RELIANCE", some 1, some 0⟩)).1
      = .validationError "price is required for LIMIT orders" := by
  constructor
  · simp
  · norm_num [placeOrder, falsyStr, falsyNum, decide_eq_true_eq,
      show ("RELIANCE" = "") = False from by simp]

/-- C4 (amended): for a LIMIT request passing the earlier checks, place-order
returns the price-required validation error exactly when the price is absent
OR equal to zero (Python falsiness); a LIMIT request supplying a nonzero
price passes the check regardless of sign (positivity is not enforced), and
the resulting order's price is the caller-supplied limit price. -/
theorem c4_limit_price_check_amended {s : TradingState} {req : OrderRequest} {q : ℚ}
    (hids : ∀ o ∈ s.orders, o.orderId < s.nextId)
    (htype : req.orderType = some "BUY" ∨ req.orderType = some "SELL")
    (hstyle : req.orderStyle = some "LIMIT")
    (hsymgood : falsyStr req.symbol = false)
    (hq : req.quantity = some q) (hqpos : 0 < q) :
    ((placeOrder s (some req)).1 = .validationError "price is required for LIMIT orders"
      ↔ (req.price = none ∨ req.price = some 0))
    ∧ ∀ ord, (placeOrder s (some req)).1 = .success ord → some ord.price = req.price := by
  have hc1 : (!(req.orderType == some "BUY" || req.orderType == some "SELL")) = false := by
    rcases htype with h | h <;> rw [h] <;> rfl
  have hc2 : (!(req.orderStyle == some "MARKET" || req.orderStyle == some "LIMIT")) = false := by
    rw [hstyle]; rfl
  have hc4 : (falsyNum req.quantity || decide (req.quantity.getD 0 ≤ 0)) = false := by
    rw [hq]
    simp [falsyNum, beq_eq_false_iff_ne.mpr (ne_of_gt hqpos), not_le.mpr hqpos, hqpos.not_le]
  cases hp : falsyNum req.price with
  | true =>
    have hc5 : (req.orderStyle == some "LIMIT" && falsyNum req.price) = true := by
      rw [hstyle, hp]; rfl
    have heval : placeOrder s (some req)
        = (.validationError "price is required for LIMIT orders", s) := by
      simp only [placeOrder, hc1, hc2, hsymgood, hc4, hc5, Bool.false_eq_true, if_false, if_true,
        ite_true, ite_false]
    refine ⟨⟨fun _ => (falsyNum_true_iff req.price).mp hp, fun _ => by rw [heval]⟩, ?_⟩
    intro ord hord
    rw [heval] at hord
    exact absurd hord (by simp)
  | false =>
    obtain ⟨p, hpeq, hpne⟩ := (falsyNum_false_iff req.price).mp hp
    have hrhs : ¬(req.price = none ∨ req.price = some 0) := by
      rintro (h | h) <;> rw [hpeq] at h
      · exact Option.noConfusion h
      · exact hpne (Option.some_injective _ h)
    have hc5 : (req.orderStyle == some "LIMIT" && falsyNum req.price) = false := by
      rw [hstyle, hp]; rfl
    obtain ⟨sym, hsym⟩ := symbol_of_not_falsy hsymgood
    cases hfi : findInstrument (req.symbol.getD "") with
    | none =>
      have heval : placeOrder s (some req)
          = (.validationError ("Invalid symbol: " ++ req.symbol.getD ""), s) := by
        simp only [placeOrder, hc1, hc2, hsymgood, hc4, hc5, hfi, Bool.false_eq_true, if_false,
          if_true, ite_true, ite_false]
      refine ⟨⟨fun h => ?_, fun h => absurd h hrhs⟩, ?_⟩
      · rw [heval] at h
        simp only [PlaceResult.validationError.injEq] at h
        exact absurd h (invalid_symbol_msg_ne _)
      · intro ord hord
        rw [heval] at hord
        exact absurd hord (by simp)
    | some instrument =>
      cases hc7 : (req.orderType == some "SELL" &&
          decide (((portfolioGet s.portfolio (req.symbol.getD "")).map Holding.quantity).getD 0
            < req.quantity.getD 0)) with
      | true =>
        have heval : placeOrder s (some req)
            = (.validationError "Insufficient holdings to sell", s) := by
          simp only [placeOrder, hc1, hc2, hsymgood, hc4, hc5, hfi, hc7, Bool.false_eq_true,
            if_false, if_true, ite_true, ite_false]
        refine ⟨⟨fun h => ?_, fun h => absurd h hrhs⟩, ?_⟩
        · rw [heval] at h
          simp only [PlaceResult.validationError.injEq] at h
          exact absurd h (by decide)
        · intro ord hord
          rw [heval] at hord
          exact absurd hord (by simp)
      | false =>
        have hfind : findInstrument sym = some instrument := by
          rw [hsym] at hfi
          simpa using hfi
        have hheld : req.orderType = some "SELL" →
            q ≤ ((portfolioGet s.portfolio sym).getD ⟨0, 0, 0⟩).quantity := by
          intro ht
          rw [ht, hsym, hq] at hc7
          simp only [Option.getD_some, beq_self_eq_true, Bool.true_and,
            decide_eq_false_iff_not, not_lt, heldQuantity_eq] at hc7
          exact hc7
        rw [placeOrder_limit hids htype hstyle hsym hfind hq hqpos hp hheld]
        refine ⟨⟨fun h => absurd h (by simp), fun h => absurd h hrhs⟩, ?_⟩
        intro ord hord
        simp only [PlaceResult.success.injEq] at hord
        rw [← hord, hpeq]
        rfl

/-- Witness for the amended C4: LIMIT BUY of 1 RELIANCE at price -5 (negative
price accepted; the error arises exactly for absent-or-zero price). -/
theorem c4_limit_price_check_amended_witness :
    ((placeOrder initialState
        (some ⟨some "BUY", some "LIMIT", some "RELIANCE", some 1, some (-5)⟩)).1
        = .validationError "price is required for LIMIT orders"
      ↔ ((some (-5 : ℚ) : Option ℚ) = none ∨ (some (-5 : ℚ) : Option ℚ) = some 0))
    ∧ ∀ ord, (placeOrder initialState
        (some ⟨some "BUY", some "LIMIT", some "RELIANCE", some 1, some (-5)⟩)).1
        = .success ord → some ord.price = some (-5 : ℚ) :=
  c4_limit_price_check_amended (fun o ho => absurd ho (List.not_mem_nil o))
    (Or.inl rfl) rfl (by decide) rfl (by norm_num)
